import Mathlib

set_option maxRecDepth 8000

/-!
Verification of the moses filesystem-analysis tools: a shallow embedding of
the exFAT / ext4 / FAT16 decoding, checksum, validation and comparison logic
of `src/tools/*.py`, with theorems settling the frozen claims about them.

Devices and byte buffers are modelled as `List Nat` (one element per byte);
machine integers are `Nat` with explicit masking where the source masks.
Python exceptions (struct.error, ZeroDivisionError, ValueError on negative
seek) are modelled with `Except`.
-/

/-! ## Byte-level primitives shared by all decoders -/

/-- Little-endian byte read: `data[off]`, 0 when out of range (callers check
length bounds first, mirroring `struct.unpack_from` which raises instead). -/
def u8 (data : List Nat) (off : Nat) : Nat := data.getD off 0

/-- `struct.unpack_from('<H', data, off)`. -/
def u16 (data : List Nat) (off : Nat) : Nat :=
  u8 data off + 256 * u8 data (off + 1)

/-- `struct.unpack_from('<I', data, off)`. -/
def u32 (data : List Nat) (off : Nat) : Nat :=
  u16 data off + 65536 * u16 data (off + 2)

/-- `struct.unpack_from('<Q', data, off)`. -/
def u64 (data : List Nat) (off : Nat) : Nat :=
  u32 data off + 4294967296 * u32 data (off + 4)

/-- Python slice `data[a:b]` (truncating, never failing). -/
def pySlice (data : List Nat) (a b : Nat) : List Nat :=
  (data.drop a).take (b - a)

/-- `bytes.rstrip(b'\x00')`. -/
def rstrip0 (l : List Nat) : List Nat :=
  (l.reverse.dropWhile (· == 0)).reverse

/-- `.decode('ascii', errors='ignore')`: non-ASCII bytes are dropped. -/
def asciiIgnore (l : List Nat) : List Nat :=
  l.filter (· < 128)

/-- Python `str.rstrip()` on an ASCII string: drop trailing whitespace. -/
def rstripWS (l : List Nat) : List Nat :=
  (l.reverse.dropWhile (fun b => b == 32 || b == 9 || b == 10 || b == 11 || b == 12 || b == 13)).reverse

/-- Python `str.strip()` on an ASCII string. -/
def stripWS (l : List Nat) : List Nat :=
  ((rstripWS l).dropWhile (fun b => b == 32 || b == 9 || b == 10 || b == 11 || b == 12 || b == 13))

/-! ## Checksum Engine: exFAT boot checksum
(`exfat_compare.calculate_checksum`, also inlined in
`exfat_hexdump.analyze_checksum`). -/

/-- One iteration of the loop body of `calculate_checksum`: the Python
accumulator is an unbounded int, so no masking happens here. -/
def checksumStep (c b : Nat) : Nat :=
  if c % 2 = 1 then 0x80000000 + c / 2 + b else c / 2 + b

/-- Byte offsets skipped by the accumulation (VolumeFlags and PercentInUse). -/
def skipIdx (i : Nat) : Bool := i == 106 || i == 107 || i == 112

/-- The enumerated loop of `calculate_checksum`: `i` is the byte index. -/
def checksumAux : Nat → Nat → List Nat → Nat
  | _, c, [] => c
  | i, c, b :: bs =>
    if skipIdx i then checksumAux (i + 1) c bs
    else checksumAux (i + 1) (checksumStep c b) bs

/-- `exfat_compare.calculate_checksum`: fold the rotate-and-add step over all
bytes except offsets 106, 107, 112, and mask to 32 bits once at the end. -/
def calculate_checksum (sectors_data : List Nat) : Nat :=
  checksumAux 0 0 sectors_data % 2 ^ 32

/-- Modelled from the spec: the input bytes with offsets 106, 107 and 112
removed (the excluded VolumeFlags / PercentInUse positions). -/
def removeExcluded (bs : List Nat) : List Nat :=
  ((List.enum bs).filter (fun p => ! skipIdx p.1)).map Prod.snd

/-- Modelled from the spec: one step of the reference rolling checksum with
the accumulator masked to 32 bits after each step, as claim C1 words it. -/
def rollStepMasked (c b : Nat) : Nat :=
  (if c % 2 = 1 then 0x80000000 + c / 2 + b else c / 2 + b) % 2 ^ 32

/-- Modelled from the spec: the reference checksum of claim C1, masked after
every step. -/
def spec_checksum_stepmask (bs : List Nat) : Nat :=
  (removeExcluded bs).foldl rollStepMasked 0

/-- Modelled from the spec: the reference checksum with the recurrence of
claim C1 but the accumulator masked once at the end. -/
def spec_checksum_endmask (bs : List Nat) : Nat :=
  (removeExcluded bs).foldl checksumStep 0 % 2 ^ 32

theorem checksumAux_eq_foldl (bs : List Nat) :
    ∀ i c, checksumAux i c bs
      = (((List.enumFrom i bs).filter (fun p => ! skipIdx p.1)).map Prod.snd).foldl checksumStep c := by
  induction bs with
  | nil => intro i c; simp [checksumAux]
  | cons b tl ih =>
    intro i c
    rw [List.enumFrom_cons]
    by_cases h : skipIdx i
    · simp [checksumAux, h, List.filter_cons, ih]
    · simp [checksumAux, h, List.filter_cons, ih]

theorem checksumAux_congr (xs : List Nat) :
    ∀ (ys : List Nat) (i c : Nat), xs.length = ys.length →
      (∀ j, skipIdx (i + j) = false → xs[j]? = ys[j]?) →
      checksumAux i c xs = checksumAux i c ys := by
  induction xs with
  | nil =>
    intro ys i c hlen _
    cases ys with
    | nil => rfl
    | cons y tl => simp at hlen
  | cons x tl ih =>
    intro ys i c hlen hag
    cases ys with
    | nil => simp at hlen
    | cons y tl' =>
      have hlen' : tl.length = tl'.length := by simpa using hlen
      have hag' : ∀ j, skipIdx (i + 1 + j) = false → tl[j]? = tl'[j]? := by
        intro j hj
        have := hag (j + 1) (by simpa [Nat.add_assoc, Nat.add_comm 1 j] using hj)
        simpa using this
      by_cases h : skipIdx i
      · simp only [checksumAux, if_pos h]
        exact ih tl' (i + 1) c hlen' hag'
      · have hx : x = y := by
          have := hag 0 (by simpa using (Bool.not_eq_true _ ▸ h : skipIdx i = false))
          simpa using this
        simp only [checksumAux, if_neg h, hx]
        exact ih tl' (i + 1) (checksumStep c y) hlen' hag'

/-- C1 (corrected): the program's checksum equals the reference recurrence
with the mask applied once at the end.  The Python accumulator is an
unbounded integer masked only on return, so the per-step-masked reference of
the claim can disagree (see the counterexample). -/
theorem c1_checksum_endmask (bs : List Nat) :
    calculate_checksum bs = spec_checksum_endmask bs := by
  unfold calculate_checksum spec_checksum_endmask removeExcluded
  rw [show List.enum bs = List.enumFrom 0 bs from rfl, checksumAux_eq_foldl]

/-- Modelled from the spec: the claim C1 reference checksum as an enumerated
loop (index-skipping form of `spec_checksum_stepmask`, used for evaluation). -/
def stepmaskAux : Nat → Nat → List Nat → Nat
  | _, c, [] => c
  | i, c, b :: bs =>
    if skipIdx i then stepmaskAux (i + 1) c bs
    else stepmaskAux (i + 1) (rollStepMasked c b) bs

theorem stepmaskAux_eq_foldl (bs : List Nat) :
    ∀ i c, stepmaskAux i c bs
      = (((List.enumFrom i bs).filter (fun p => ! skipIdx p.1)).map Prod.snd).foldl rollStepMasked c := by
  induction bs with
  | nil => intro i c; simp [stepmaskAux]
  | cons b tl ih =>
    intro i c
    rw [List.enumFrom_cons]
    by_cases h : skipIdx i
    · simp [stepmaskAux, h, List.filter_cons, ih]
    · simp [stepmaskAux, h, List.filter_cons, ih]

theorem spec_checksum_stepmask_eq_aux (bs : List Nat) :
    spec_checksum_stepmask bs = stepmaskAux 0 0 bs := by
  unfold spec_checksum_stepmask removeExcluded
  rw [show List.enum bs = List.enumFrom 0 bs from rfl, stepmaskAux_eq_foldl]

theorem checksumAux_append (xs : List Nat) :
    ∀ (ys : List Nat) (i c : Nat),
      checksumAux i c (xs ++ ys) = checksumAux (i + xs.length) (checksumAux i c xs) ys := by
  induction xs with
  | nil => intro ys i c; simp [checksumAux]
  | cons x tl ih =>
    intro ys i c
    have harith : i + (tl.length + 1) = i + 1 + tl.length := by omega
    by_cases h : skipIdx i
    · simp only [List.cons_append, checksumAux, if_pos h, List.length_cons, harith]
      exact ih ys (i + 1) c
    · simp only [List.cons_append, checksumAux, if_neg h, List.length_cons, harith]
      exact ih ys (i + 1) (checksumStep c x)

theorem stepmaskAux_append (xs : List Nat) :
    ∀ (ys : List Nat) (i c : Nat),
      stepmaskAux i c (xs ++ ys) = stepmaskAux (i + xs.length) (stepmaskAux i c xs) ys := by
  induction xs with
  | nil => intro ys i c; simp [stepmaskAux]
  | cons x tl ih =>
    intro ys i c
    have harith : i + (tl.length + 1) = i + 1 + tl.length := by omega
    by_cases h : skipIdx i
    · simp only [List.cons_append, stepmaskAux, if_pos h, List.length_cons, harith]
      exact ih ys (i + 1) c
    · simp only [List.cons_append, stepmaskAux, if_neg h, List.length_cons, harith]
      exact ih ys (i + 1) (rollStepMasked c x)

/-- The 35 non-zero leading bytes of the C1 counterexample: they drive the
unbounded Python accumulator above `2 ^ 32`, after which the end-masked and
per-step-masked computations diverge. -/
def c1_pre : List Nat :=
  [255, 254, 255, 255, 255, 255, 255, 255,
   254, 254, 254, 254, 254, 254, 254, 254,
   254, 254, 254, 254, 254, 254, 254, 254,
   254, 254, 254, 254, 254, 254, 254, 254,
   255, 254, 254]

/-- The C1 counterexample input: a concrete 5632-byte boot region. -/
def c1_cex_bytes : List Nat := c1_pre ++ List.replicate 5597 0

theorem c1_cex_chunks250 :
    c1_cex_bytes = c1_pre ++ (List.replicate 250 0 ++ (List.replicate 250 0 ++ (List.replicate 250 0 ++ (List.replicate 250 0 ++ (List.replicate 250 0 ++ (List.replicate 250 0 ++ (List.replicate 250 0 ++ (List.replicate 250 0 ++ (List.replicate 250 0 ++ (List.replicate 250 0 ++ (List.replicate 250 0 ++ (List.replicate 250 0 ++ (List.replicate 250 0 ++ (List.replicate 250 0 ++ (List.replicate 250 0 ++ (List.replicate 250 0 ++ (List.replicate 250 0 ++ (List.replicate 250 0 ++ (List.replicate 250 0 ++ (List.replicate 250 0 ++ (List.replicate 250 0 ++ (List.replicate 250 0 ++ (List.replicate 97 0))))))))))))))))))))))) := by
  unfold c1_cex_bytes
  rw [show (5597 : Nat) = 250 + (250 + (250 + (250 + (250 + (250 + (250 + (250 + (250 + (250 + (250 + (250 + (250 + (250 + (250 + (250 + (250 + (250 + (250 + (250 + (250 + (250 + 97))))))))))))))))))))) from rfl]
  simp only [List.replicate_add, List.append_assoc]

theorem c1_cex_calculate_checksum : calculate_checksum c1_cex_bytes = 32512 := by
  have hlen : ∀ n : Nat, (List.replicate n (0 : Nat)).length = n := fun n => List.length_replicate n 0
  have hpre : c1_pre.length = 35 := by decide
  have e0 : checksumAux 0 0 c1_pre = 4294967803 := by decide
  have e1 : checksumAux 35 4294967803 (List.replicate 250 0) = 260096 := by decide
  have e2 : checksumAux 285 260096 (List.replicate 250 0) = 16646144 := by decide
  have e3 : checksumAux 535 16646144 (List.replicate 250 0) = 1065353216 := by decide
  have e4 : checksumAux 785 1065353216 (List.replicate 250 0) = 3758096399 := by decide
  have e5 : checksumAux 1035 3758096399 (List.replicate 250 0) = 1016 := by decide
  have e6 : checksumAux 1285 1016 (List.replicate 250 0) = 65024 := by decide
  have e7 : checksumAux 1535 65024 (List.replicate 250 0) = 4161536 := by decide
  have e8 : checksumAux 1785 4161536 (List.replicate 250 0) = 266338304 := by decide
  have e9 : checksumAux 2035 266338304 (List.replicate 250 0) = 4160749571 := by decide
  have e10 : checksumAux 2285 4160749571 (List.replicate 250 0) = 254 := by decide
  have e11 : checksumAux 2535 254 (List.replicate 250 0) = 16256 := by decide
  have e12 : checksumAux 2785 16256 (List.replicate 250 0) = 1040384 := by decide
  have e13 : checksumAux 3035 1040384 (List.replicate 250 0) = 66584576 := by decide
  have e14 : checksumAux 3285 66584576 (List.replicate 250 0) = 4261412864 := by decide
  have e15 : checksumAux 3535 4261412864 (List.replicate 250 0) = 2147483711 := by decide
  have e16 : checksumAux 3785 2147483711 (List.replicate 250 0) = 4064 := by decide
  have e17 : checksumAux 4035 4064 (List.replicate 250 0) = 260096 := by decide
  have e18 : checksumAux 4285 260096 (List.replicate 250 0) = 16646144 := by decide
  have e19 : checksumAux 4535 16646144 (List.replicate 250 0) = 1065353216 := by decide
  have e20 : checksumAux 4785 1065353216 (List.replicate 250 0) = 3758096399 := by decide
  have e21 : checksumAux 5035 3758096399 (List.replicate 250 0) = 1016 := by decide
  have e22 : checksumAux 5285 1016 (List.replicate 250 0) = 65024 := by decide
  have e23 : checksumAux 5535 65024 (List.replicate 97 0) = 32512 := by decide
  have hfold : checksumAux 0 0 c1_cex_bytes = 32512 := by
    rw [c1_cex_chunks250]
    simp only [checksumAux_append, hlen, hpre, Nat.reduceAdd, e0, e1, e2, e3, e4, e5, e6, e7, e8, e9, e10, e11, e12, e13, e14, e15, e16, e17, e18, e19, e20, e21, e22, e23]
  have hdef : ∀ bs, calculate_checksum bs = checksumAux 0 0 bs % 2 ^ 32 := fun _ => rfl
  rw [hdef, hfold]
  decide

theorem c1_cex_spec_stepmask : spec_checksum_stepmask c1_cex_bytes = 4026564351 := by
  have hlen : ∀ n : Nat, (List.replicate n (0 : Nat)).length = n := fun n => List.length_replicate n 0
  have hpre : c1_pre.length = 35 := by decide
  have e0 : stepmaskAux 0 0 c1_pre = 4290773499 := by decide
  have e1 : stepmaskAux 35 4290773499 (List.replicate 250 0) = 2147743743 := by decide
  have e2 : stepmaskAux 285 2147743743 (List.replicate 250 0) = 16646112 := by decide
  have e3 : stepmaskAux 535 16646112 (List.replicate 250 0) = 1065351168 := by decide
  have e4 : stepmaskAux 785 1065351168 (List.replicate 250 0) = 3757965327 := by decide
  have e5 : stepmaskAux 1035 3757965327 (List.replicate 250 0) = 4286579703 := by decide
  have e6 : stepmaskAux 1285 4286579703 (List.replicate 250 0) = 3758161407 := by decide
  have e7 : stepmaskAux 1535 3758161407 (List.replicate 250 0) = 4161528 := by decide
  have e8 : stepmaskAux 1785 4161528 (List.replicate 250 0) = 266337792 := by decide
  have e9 : stepmaskAux 2035 266337792 (List.replicate 250 0) = 4160716803 := by decide
  have e10 : stepmaskAux 2285 4160716803 (List.replicate 250 0) = 4292870397 := by decide
  have e11 : stepmaskAux 2535 4292870397 (List.replicate 250 0) = 4160765823 := by decide
  have e12 : stepmaskAux 2785 4160765823 (List.replicate 250 0) = 1040382 := by decide
  have e13 : stepmaskAux 3035 1040382 (List.replicate 250 0) = 66584448 := by decide
  have e14 : stepmaskAux 3285 66584448 (List.replicate 250 0) = 4261404672 := by decide
  have e15 : stepmaskAux 3535 4261404672 (List.replicate 250 0) = 2146959423 := by decide
  have e16 : stepmaskAux 3785 2146959423 (List.replicate 250 0) = 4261416927 := by decide
  have e17 : stepmaskAux 4035 4261416927 (List.replicate 250 0) = 2147743743 := by decide
  have e18 : stepmaskAux 4285 2147743743 (List.replicate 250 0) = 16646112 := by decide
  have e19 : stepmaskAux 4535 16646112 (List.replicate 250 0) = 1065351168 := by decide
  have e20 : stepmaskAux 4785 1065351168 (List.replicate 250 0) = 3757965327 := by decide
  have e21 : stepmaskAux 5035 3757965327 (List.replicate 250 0) = 4286579703 := by decide
  have e22 : stepmaskAux 5285 4286579703 (List.replicate 250 0) = 3758161407 := by decide
  have e23 : stepmaskAux 5535 3758161407 (List.replicate 97 0) = 4026564351 := by decide
  rw [spec_checksum_stepmask_eq_aux, c1_cex_chunks250]
  simp only [stepmaskAux_append, hlen, hpre, Nat.reduceAdd, e0, e1, e2, e3, e4, e5, e6, e7, e8, e9, e10, e11, e12, e13, e14, e15, e16, e17, e18, e19, e20, e21, e22, e23]

/-- C1 counterexample: a concrete 5632-byte boot region on which the
program's checksum (whose accumulator is masked only on return) differs from
the claim's reference that masks the accumulator to 32 bits after each step. -/
theorem c1_stepmask_counterexample :
    c1_cex_bytes.length = 5632 ∧
      calculate_checksum c1_cex_bytes ≠ spec_checksum_stepmask c1_cex_bytes := by
  refine ⟨?_, ?_⟩
  · unfold c1_cex_bytes
    rw [List.length_append, List.length_replicate, show c1_pre.length = 35 by decide]
  · rw [c1_cex_calculate_checksum, c1_cex_spec_stepmask]
    decide

/-- C2 (confirmed): the checksum depends only on the bytes at offsets other
than 106, 107 and 112; two 5632-byte boot regions agreeing there get the same
32-bit checksum, and recomputing on the same input is deterministic. -/
theorem c2_checksum_skip_invariant (a b : List Nat)
    (ha : a.length = 5632) (hb : b.length = 5632)
    (hag : ∀ i, i < 5632 → i ≠ 106 → i ≠ 107 → i ≠ 112 → a[i]? = b[i]?) :
    calculate_checksum a = calculate_checksum b ∧
      calculate_checksum a = calculate_checksum a := by
  refine ⟨?_, rfl⟩
  unfold calculate_checksum
  congr 1
  apply checksumAux_congr a b 0 0 (ha.trans hb.symm)
  intro j hj
  rcases Nat.lt_or_ge j 5632 with hlt | hge
  · have hj' : skipIdx j = false := by simpa using hj
    have h106 : j ≠ 106 := by intro h; subst h; simp [skipIdx] at hj'
    have h107 : j ≠ 107 := by intro h; subst h; simp [skipIdx] at hj'
    have h112 : j ≠ 112 := by intro h; subst h; simp [skipIdx] at hj'
    exact hag j hlt h106 h107 h112
  · have hna : a[j]? = none := by
      rw [List.getElem?_eq_none_iff]; omega
    have hnb : b[j]? = none := by
      rw [List.getElem?_eq_none_iff]; omega
    rw [hna, hnb]

theorem c2_checksum_witness :
    calculate_checksum (List.replicate 5632 0) = calculate_checksum (List.replicate 5632 0) :=
  (c2_checksum_skip_invariant (List.replicate 5632 0) (List.replicate 5632 0)
    (List.length_replicate 5632 0) (List.length_replicate 5632 0)
    (fun _ _ _ _ _ => rfl)).1

/-! ## Byte Source
(`ext4_hexdump.Ext4DeepAnalyzer.read_at` / `read_sequential`, and
`ext4_bg_compare.read_sequential`). -/

/-- `read_at` in the normal seek mode: `f.seek(offset); f.read(size)`.
A read near the end of the medium returns short (possibly empty) data;
no exception is raised. -/
def read_at (disk : List Nat) (offset size : Nat) : List Nat :=
  (disk.drop offset).take size

/-- The 64 KiB skip loop of `read_sequential`: consume `bytesToSkip` bytes
from the front of the stream, `none` when the medium ends first. -/
def skipChunks (disk : List Nat) (bytesToSkip : Nat) : Option (List Nat) :=
  if bytesToSkip = 0 then some disk
  else
    let skip_size := min 65536 bytesToSkip
    if (disk.take skip_size).length < skip_size then none
    else skipChunks (disk.drop skip_size) (bytesToSkip - skip_size)
termination_by bytesToSkip
decreasing_by omega

/-- `ext4_hexdump.read_sequential`: replay from byte 0, discarding `offset`
bytes in 64 KiB chunks, then read `size` bytes.  An unreachable offset
raises IOError inside the function's own try/except, which catches it and
returns the empty byte string; a reachable offset with a short tail returns
the short data (only a warning is printed).  The small-read cache (reads
≤ 4096 bytes) stores exactly these values, so caching does not change any
returned value. -/
def read_sequential (disk : List Nat) (offset size : Nat) : List Nat :=
  match skipChunks disk offset with
  | none => []
  | some rest => rest.take size

/-- `ext4_bg_compare.read_sequential`: same skip loop, returning `b''`
directly (no exception) when the offset is unreachable. -/
def read_sequential_bg (disk : List Nat) (offset size : Nat) : List Nat :=
  match skipChunks disk offset with
  | none => []
  | some rest => rest.take size

theorem skipChunks_eq (bytesToSkip : Nat) :
    ∀ disk : List Nat, skipChunks disk bytesToSkip
      = if disk.length < bytesToSkip then none else some (disk.drop bytesToSkip) := by
  induction bytesToSkip using Nat.strong_induction_on with
  | _ n ih =>
    intro disk
    rw [skipChunks]
    by_cases h0 : n = 0
    · subst h0; simp
    · simp only [h0, if_false]
      have hmin1 : 1 ≤ min 65536 n := by omega
      have hminn : min 65536 n ≤ n := Nat.min_le_right _ _
      rw [List.length_take]
      by_cases hshort : min (min 65536 n) disk.length < min 65536 n
      · rw [if_pos hshort]
        have : disk.length < n := by omega
        rw [if_pos this]
      · rw [if_neg hshort]
        have hle : min 65536 n ≤ disk.length := by omega
        rw [ih (n - min 65536 n) (by omega) (disk.drop (min 65536 n))]
        rw [List.length_drop, List.drop_drop]
        have harith : min 65536 n + (n - min 65536 n) = n := by omega
        rw [harith]
        by_cases hend : disk.length < n
        · rw [if_pos (by omega), if_pos hend]
        · rw [if_neg (by omega), if_neg hend]

/-- C5 (corrected): a read that cannot supply the requested bytes does not
fail with an IoError.  The sequential-emulated implementations return the
empty byte string when the offset is unreachable (ext4_hexdump catches its
own IOError; ext4_bg_compare returns b'' directly), return short data when
the tail is shorter than requested, and the random-access implementation
returns short data without any error. -/
theorem c5_byte_source_short_reads (disk : List Nat) (offset size : Nat) :
    (disk.length < offset →
      read_sequential disk offset size = [] ∧ read_sequential_bg disk offset size = []) ∧
    (offset ≤ disk.length →
      read_sequential disk offset size = (disk.drop offset).take size ∧
        read_sequential_bg disk offset size = (disk.drop offset).take size) ∧
    (read_at disk offset size).length = min size (disk.length - offset) := by
  refine ⟨?_, ?_, ?_⟩
  · intro h
    rw [read_sequential, read_sequential_bg, skipChunks_eq, if_pos h]
    exact ⟨rfl, rfl⟩
  · intro h
    rw [read_sequential, read_sequential_bg, skipChunks_eq, if_neg (by omega)]
    exact ⟨rfl, rfl⟩
  · simp [read_at]

theorem c5_short_reads_witness :
    read_sequential [1, 2, 3, 4] 10 4 = [] ∧ read_sequential_bg [1, 2, 3, 4] 10 4 = [] :=
  (c5_byte_source_short_reads [1, 2, 3, 4] 10 4).1 (by decide)

/-- C5 counterexample: concrete reads that cannot supply the requested
bytes and return short or empty data instead of failing: a random-access
read of 8 bytes from a 4-byte medium returns the 4 bytes, a sequential read
of 8 bytes at offset 2 returns the 2-byte tail, and a sequential read at an
unreachable offset returns the empty byte string. -/
theorem c5_short_read_counterexample :
    read_at [1, 2, 3, 4] 0 8 = [1, 2, 3, 4] ∧
      read_sequential [1, 2, 3, 4] 2 8 = [3, 4] ∧
      read_sequential [1, 2, 3, 4] 10 4 = [] := by
  refine ⟨rfl, ?_, ?_⟩ <;> rw [read_sequential, skipChunks_eq] <;> decide

/-! ## exFAT root directory decoding (`exfat_compare.read_root_directory`)
and FAT16 root directory decoding (`fat16_hexdump.analyze_root_directory`). -/

/-- `read_sectors` of `fat16_hexdump` / `exfat_hexdump`: seek to a sector
and read whole sectors (short near end of medium). -/
def read_sectors (device : List Nat) (start_sector count : Nat)
    (sector_size : Nat := 512) : List Nat :=
  (device.drop (start_sector * sector_size)).take (count * sector_size)

/-- A decoded exFAT root-directory entry (tagged by the slot's type byte).
String-like payloads are kept as raw byte lists. -/
inductive ExfatEntry where
  | volumeLabel (charCount : Nat) (labelBytes : List Nat)
  | bitmap (firstCluster dataLength : Nat)
  | upcase (checksum firstCluster dataLength : Nat)
  | volumeGuid (guid : List Nat)
  | fileEntry (attrs : Nat)
  | unknown (entryType : Nat)
deriving Repr, BEq, DecidableEq

/-- Classification of one 32-byte exFAT directory slot by its type byte,
as in the body of `read_root_directory`'s loop; an unrecognized type byte
becomes `.unknown` with the raw byte. -/
def exfatClassify (entry_data : List Nat) : ExfatEntry :=
  let entry_type := u8 entry_data 0
  if entry_type = 0x83 then
    .volumeLabel (u8 entry_data 1) (pySlice entry_data 2 (2 + u8 entry_data 1 * 2))
  else if entry_type = 0x81 then
    .bitmap (u32 entry_data 20) (u64 entry_data 24)
  else if entry_type = 0x82 then
    .upcase (u32 entry_data 4) (u32 entry_data 20) (u64 entry_data 24)
  else if entry_type = 0xA0 then
    .volumeGuid (pySlice entry_data 6 22)
  else if entry_type = 0x85 then
    .fileEntry (u16 entry_data 4)
  else
    .unknown entry_type

/-- The 16-iteration slot loop of `read_root_directory`: read 32 bytes,
stop on a short read or a 0x00 type byte, otherwise classify and continue. -/
def exfatReadEntries : Nat → List Nat → List ExfatEntry
  | 0, _ => []
  | fuel + 1, bytes =>
    let entry_data := bytes.take 32
    if entry_data.length < 32 then []
    else if u8 entry_data 0 = 0 then []
    else exfatClassify entry_data :: exfatReadEntries fuel (bytes.drop 32)

inductive SeekErr where
  | negativeSeek
deriving Repr, BEq, DecidableEq

/-- `exfat_compare.read_root_directory`: locate the root directory at
`cluster_heap_offset * 512 + (first_cluster_root - 2) * sectors_per_cluster
* 512` (Python int arithmetic, so the offset can be negative, and a negative
`f.seek` raises ValueError), then decode up to 16 slots. -/
def read_root_directory (device : List Nat)
    (cluster_heap_offset first_cluster_root sectors_per_cluster : Nat)
    (bytes_per_sector : Nat := 512) : Except SeekErr (List ExfatEntry) :=
  let cluster_offset : Int :=
    ((first_cluster_root : Int) - 2) * (sectors_per_cluster : Int) * (bytes_per_sector : Int)
  let root_offset : Int := (cluster_heap_offset : Int) * (bytes_per_sector : Int) + cluster_offset
  if root_offset < 0 then .error .negativeSeek
  else .ok (exfatReadEntries 16 (device.drop root_offset.toNat))

/-- A decoded FAT16 root-directory line, one per loop iteration of
`analyze_root_directory` (the end-of-directory marker terminates decoding;
deleted entries are reported and skipped). -/
inductive Fat16Entry where
  | endOfDirectory
  | deleted
  | longName (sequence : Nat) (isLast : Bool) (checksum : Nat)
  | volumeLabel (label : List Nat)
  | fileEntry (filename extension : List Nat)
      (attributes first_cluster file_size : Nat)
deriving Repr, BEq, DecidableEq

/-- The slot loop of `fat16_hexdump.analyze_root_directory`.  A first byte
of 0x05 (kanji lead marker) is reassigned to 0xE5 in the source but the
reassigned variable is never used afterwards, so such slots flow into the
long-name/regular handling exactly as here. -/
def fat16ReadEntries : Nat → List Nat → List Fat16Entry
  | 0, _ => []
  | fuel + 1, bytes =>
    let entry := bytes.take 32
    let first_byte := u8 entry 0
    if first_byte = 0x00 then [.endOfDirectory]
    else if first_byte = 0xE5 then .deleted :: fat16ReadEntries fuel (bytes.drop 32)
    else if u8 entry 11 = 0x0F then
      .longName (first_byte &&& 0x3F) (first_byte &&& 0x40 != 0) (u8 entry 13)
        :: fat16ReadEntries fuel (bytes.drop 32)
    else
      let filename := rstripWS (asciiIgnore (pySlice entry 0 8))
      let extension := rstripWS (asciiIgnore (pySlice entry 8 11))
      let attributes := u8 entry 11
      let first_cluster := u16 entry 26
      let file_size := u32 entry 28
      (if attributes &&& 0x08 != 0 then Fat16Entry.volumeLabel (stripWS (filename ++ extension))
       else Fat16Entry.fileEntry filename extension attributes first_cluster file_size)
        :: fat16ReadEntries fuel (bytes.drop 32)

/-- `fat16_hexdump.analyze_root_directory`: read one sector of the root
region (located after the reserved sectors and FAT copies) and decode at
most `min 16 (len / 32)` full 32-byte slots. -/
def analyze_root_directory (device : List Nat)
    (reserved_sectors num_fats sectors_per_fat : Nat) : List Fat16Entry :=
  let root_start_sector := reserved_sectors + num_fats * sectors_per_fat
  let root_data := read_sectors device root_start_sector 1
  fat16ReadEntries (min 16 (root_data.length / 32)) root_data

theorem fat16ReadEntries_marker_head (fuel : Nat) (post : List Nat) :
    fat16ReadEntries (fuel + 1) (0 :: post) = [Fat16Entry.endOfDirectory] := by
  have ht : ((0 : Nat) :: post).take 32 = 0 :: post.take 31 := rfl
  simp only [fat16ReadEntries, ht]
  rfl

theorem exfatReadEntries_marker_head (fuel : Nat) (post : List Nat) :
    exfatReadEntries (fuel + 1) (0 :: post) = [] := by
  have ht : ((0 : Nat) :: post).take 32 = 0 :: post.take 31 := rfl
  simp only [exfatReadEntries, ht]
  by_cases h : ((0 : Nat) :: post.take 31).length < 32
  · rw [if_pos h]
  · have hz : u8 (0 :: post.take 31) 0 = 0 := rfl
    rw [if_neg h, if_pos hz]

theorem fat16ReadEntries_stops_at_marker (pre : List (List Nat))
    (hpre : ∀ s ∈ pre, s.length = 32 ∧ u8 s 0 ≠ 0) :
    ∀ (fuel : Nat) (post post' : List Nat),
      fat16ReadEntries fuel (pre.flatten ++ 0 :: post)
        = fat16ReadEntries fuel (pre.flatten ++ 0 :: post') := by
  induction pre with
  | nil =>
    intro fuel post post'
    cases fuel with
    | zero => rfl
    | succ f =>
      simp only [List.flatten_nil, List.nil_append]
      rw [fat16ReadEntries_marker_head, fat16ReadEntries_marker_head]
  | cons s pre ih =>
    intro fuel post post'
    obtain ⟨hs32, hs0⟩ := hpre s (List.mem_cons_self s pre)
    have ih' := ih (fun t ht => hpre t (List.mem_cons_of_mem s ht))
    cases fuel with
    | zero => rfl
    | succ f =>
      simp only [List.flatten_cons, List.append_assoc]
      have hta : ∀ r : List Nat, (s ++ r).take 32 = s := fun r => List.take_left' hs32
      have hdr : ∀ r : List Nat, (s ++ r).drop 32 = r := fun r => List.drop_left' hs32
      simp only [fat16ReadEntries, hta, hdr]
      rw [if_neg hs0, if_neg hs0]
      by_cases hE5 : u8 s 0 = 0xE5
      · simp only [if_pos hE5]
        exact congrArg _ (ih' f post post')
      · simp only [if_neg hE5]
        by_cases hLFN : u8 s 11 = 0x0F
        · simp only [if_pos hLFN]
          exact congrArg _ (ih' f post post')
        · simp only [if_neg hLFN]
          exact congrArg _ (ih' f post post')

theorem exfatReadEntries_stops_at_marker (pre : List (List Nat))
    (hpre : ∀ s ∈ pre, s.length = 32 ∧ u8 s 0 ≠ 0) :
    ∀ (fuel : Nat) (post post' : List Nat),
      exfatReadEntries fuel (pre.flatten ++ 0 :: post)
        = exfatReadEntries fuel (pre.flatten ++ 0 :: post') := by
  induction pre with
  | nil =>
    intro fuel post post'
    cases fuel with
    | zero => rfl
    | succ f =>
      simp only [List.flatten_nil, List.nil_append]
      rw [exfatReadEntries_marker_head, exfatReadEntries_marker_head]
  | cons s pre ih =>
    intro fuel post post'
    obtain ⟨hs32, hs0⟩ := hpre s (List.mem_cons_self s pre)
    have ih' := ih (fun t ht => hpre t (List.mem_cons_of_mem s ht))
    cases fuel with
    | zero => rfl
    | succ f =>
      simp only [List.flatten_cons, List.append_assoc]
      have hta : ∀ r : List Nat, (s ++ r).take 32 = s := fun r => List.take_left' hs32
      have hdr : ∀ r : List Nat, (s ++ r).drop 32 = r := fun r => List.drop_left' hs32
      simp only [exfatReadEntries, hta, hdr]
      rw [if_neg (by omega : ¬ s.length < 32), if_neg (by omega : ¬ s.length < 32),
        if_neg hs0, if_neg hs0]
      exact congrArg _ (ih' f post post')

theorem exfatReadEntries_unknown_step (fuel : Nat) (s rest : List Nat)
    (hs32 : s.length = 32) (h0 : u8 s 0 ≠ 0x00) (h83 : u8 s 0 ≠ 0x83)
    (h81 : u8 s 0 ≠ 0x81) (h82 : u8 s 0 ≠ 0x82) (hA0 : u8 s 0 ≠ 0xA0)
    (h85 : u8 s 0 ≠ 0x85) :
    exfatReadEntries (fuel + 1) (s ++ rest)
      = ExfatEntry.unknown (u8 s 0) :: exfatReadEntries fuel rest := by
  simp only [exfatReadEntries, List.take_left' hs32, List.drop_left' hs32]
  rw [if_neg (by omega : ¬ s.length < 32), if_neg h0]
  congr 1
  simp only [exfatClassify]
  rw [if_neg h83, if_neg h81, if_neg h82, if_neg hA0, if_neg h85]

theorem exfatReadEntries_take_congr :
    ∀ (fuel : Nat) (bytes bytes' : List Nat),
      bytes.take (32 * fuel) = bytes'.take (32 * fuel) →
      exfatReadEntries fuel bytes = exfatReadEntries fuel bytes' := by
  intro fuel
  induction fuel with
  | zero => intro _ _ _; rfl
  | succ f ih =>
    intro bytes bytes' htake
    have h32 : bytes.take 32 = bytes'.take 32 := by
      have h1 : bytes.take 32 = (bytes.take (32 * (f + 1))).take 32 := by
        rw [List.take_take]
        congr 1
        omega
      have h2 : bytes'.take 32 = (bytes'.take (32 * (f + 1))).take 32 := by
        rw [List.take_take]
        congr 1
        omega
      rw [h1, h2, htake]
    have hdrop : (bytes.drop 32).take (32 * f) = (bytes'.drop 32).take (32 * f) := by
      rw [List.take_drop, List.take_drop]
      have : 32 + 32 * f = 32 * (f + 1) := by ring
      rw [this, htake]
    simp only [exfatReadEntries, h32]
    by_cases hlen : (bytes'.take 32).length < 32
    · rw [if_pos hlen, if_pos hlen]
    · rw [if_neg hlen, if_neg hlen]
      by_cases hz : u8 (bytes'.take 32) 0 = 0
      · rw [if_pos hz, if_pos hz]
      · rw [if_neg hz, if_neg hz, ih (bytes.drop 32) (bytes'.drop 32) hdrop]

/-- The FAT16 example root region of claim C6: a short-name entry
"FOO.TXT", a long-name fragment, the end-of-directory marker, and a junk
slot after the marker that must never be decoded. -/
def c6_fat16_root : List Nat :=
  [70, 79, 79, 32, 32, 32, 32, 32, 84, 88, 84, 0x20, 0, 0, 0, 0,
   0, 0, 0, 0, 0, 0, 0, 0, 0, 0, 5, 0, 210, 4, 0, 0]
    ++ [0x41, 65, 0, 66, 0, 67, 0, 0, 0, 0, 0, 0x0F, 0, 0xAB, 0, 0,
        0, 0, 0, 0, 0, 0, 0, 0, 0, 0, 0, 0, 0, 0, 0, 0]
    ++ List.replicate 32 0
    ++ [66, 65, 82, 32, 32, 32, 32, 32, 84, 88, 84, 0x20, 0, 0, 0, 0,
        0, 0, 0, 0, 0, 0, 0, 0, 0, 0, 9, 0, 7, 0, 0, 0]

/-- C6 (confirmed): directory decoding (exFAT and FAT16) reads 32-byte
slots sequentially, stops at the first slot whose first byte is 0x00 or
after 16 slots (only the first 512 bytes can influence the result), never
decodes a slot after the end-of-directory marker, maps an unrecognized
exFAT type byte to a generic unknown entry carrying the raw byte while
continuing with subsequent slots, and the FAT16 example root directory
[short-name "FOO.TXT", long-name fragment, end-of-directory marker, junk]
yields exactly two decoded entries before the marker terminates decoding. -/
theorem c6_directory_slot_decoding :
    (analyze_root_directory c6_fat16_root 0 2 0
        = [Fat16Entry.fileEntry [70, 79, 79] [84, 88, 84] 0x20 5 1234,
           Fat16Entry.longName 1 true 0xAB,
           Fat16Entry.endOfDirectory] ∧
      ((analyze_root_directory c6_fat16_root 0 2 0).filter
          (fun e => e != Fat16Entry.endOfDirectory)).length = 2) ∧
    (∀ (pre : List (List Nat)), (∀ s ∈ pre, s.length = 32 ∧ u8 s 0 ≠ 0) →
      ∀ (fuel : Nat) (post post' : List Nat),
        fat16ReadEntries fuel (pre.flatten ++ 0 :: post)
          = fat16ReadEntries fuel (pre.flatten ++ 0 :: post')) ∧
    (∀ (pre : List (List Nat)), (∀ s ∈ pre, s.length = 32 ∧ u8 s 0 ≠ 0) →
      ∀ (fuel : Nat) (post post' : List Nat),
        exfatReadEntries fuel (pre.flatten ++ 0 :: post)
          = exfatReadEntries fuel (pre.flatten ++ 0 :: post')) ∧
    (∀ (fuel : Nat) (s rest : List Nat), s.length = 32 →
      u8 s 0 ≠ 0x00 → u8 s 0 ≠ 0x83 → u8 s 0 ≠ 0x81 → u8 s 0 ≠ 0x82 →
      u8 s 0 ≠ 0xA0 → u8 s 0 ≠ 0x85 →
      exfatReadEntries (fuel + 1) (s ++ rest)
        = ExfatEntry.unknown (u8 s 0) :: exfatReadEntries fuel rest) ∧
    (∀ bytes bytes' : List Nat, bytes.take 512 = bytes'.take 512 →
      exfatReadEntries 16 bytes = exfatReadEntries 16 bytes') := by
  refine ⟨⟨by decide, by decide⟩,
    fun pre h fuel post post' => fat16ReadEntries_stops_at_marker pre h fuel post post',
    fun pre h fuel post post' => exfatReadEntries_stops_at_marker pre h fuel post post',
    fun fuel s rest h1 h2 h3 h4 h5 h6 h7 =>
      exfatReadEntries_unknown_step fuel s rest h1 h2 h3 h4 h5 h6 h7,
    fun bytes bytes' h => exfatReadEntries_take_congr 16 bytes bytes' h⟩

theorem c6_directory_slot_witness :
    fat16ReadEntries 2 (List.replicate 32 1 ++ 0 :: [5])
        = fat16ReadEntries 2 (List.replicate 32 1 ++ 0 :: []) ∧
      exfatReadEntries 2 (List.replicate 32 1 ++ 0 :: [5])
        = exfatReadEntries 2 (List.replicate 32 1 ++ 0 :: []) ∧
      exfatReadEntries 1 (List.replicate 32 9 ++ [])
        = ExfatEntry.unknown (u8 (List.replicate 32 9) 0) :: exfatReadEntries 0 [] ∧
      exfatReadEntries 16 (List.replicate 520 3)
        = exfatReadEntries 16 (List.replicate 512 3 ++ [4, 4, 4, 4, 4, 4, 4, 4]) := by
  refine ⟨?_, ?_, ?_, ?_⟩
  · have h := (c6_directory_slot_decoding.2.1) [List.replicate 32 1] (by decide) 2 [5] []
    simpa using h
  · have h := (c6_directory_slot_decoding.2.2.1) [List.replicate 32 1] (by decide) 2 [5] []
    simpa using h
  · exact (c6_directory_slot_decoding.2.2.2.1) 0 (List.replicate 32 9) [] (by decide)
      (by decide) (by decide) (by decide) (by decide) (by decide) (by decide)
  · exact (c6_directory_slot_decoding.2.2.2.2) _ _ (by decide)

/-- C10 (confirmed): exFAT root-directory decoding computes the root offset
as `cluster_heap_offset * 512 + (first_cluster_root - 2) * sectors_per_cluster
* 512` with no lower-bound check; with `first_cluster_root` equal to 0 or 1
the offset can be negative (e.g. heap offset 0, one sector per cluster),
and then the operation fails with the negative-seek error instead of
returning decoded entries or a Critical Issue. -/
theorem c10_negative_root_offset :
    (∀ (device : List Nat) (heap fcr spc : Nat), fcr = 0 ∨ fcr = 1 →
      (heap : Int) * 512 + ((fcr : Int) - 2) * (spc : Int) * 512 < 0 →
      read_root_directory device heap fcr spc = .error .negativeSeek) ∧
    read_root_directory [] 0 0 1 = .error .negativeSeek := by
  constructor
  · intro device heap fcr spc _ hneg
    simp only [read_root_directory]
    rw [if_pos]
    exact hneg
  · rfl

theorem c10_negative_root_offset_witness :
    read_root_directory [7, 7, 7] 0 1 1 = .error .negativeSeek :=
  c10_negative_root_offset.1 [7, 7, 7] 0 1 1 (Or.inr rfl) (by decide)

/-! ## exFAT comparator (`exfat_compare.parse_boot_sector`,
`compare_devices` boot-field loop, `compare_fat_entries`). -/

/-- Python exceptions surfacing from decode helpers: `struct.error` /
IndexError on data too short, and ZeroDivisionError. -/
inductive PyErr where
  | structError
  | zeroDivision
deriving Repr, BEq, DecidableEq

deriving instance DecidableEq for Except

/-- A value in the parsed boot-sector dict: ints compare as numbers,
hex-strings and decoded-ascii strings compare as their byte lists
(`.hex()` is injective; ascii-ignore decoding is applied before storing). -/
inductive FieldVal where
  | num (n : Nat)
  | bytes (bs : List Nat)
deriving Repr, BEq, DecidableEq

/-- The exFAT boot-sector fields of `exfat_compare.parse_boot_sector`,
in source (dict insertion) order. -/
structure ExfatBootFields where
  jump_boot : List Nat
  fs_name : List Nat
  must_be_zero : List Nat
  partition_offset : Nat
  volume_length : Nat
  fat_offset : Nat
  fat_length : Nat
  cluster_heap_offset : Nat
  cluster_count : Nat
  first_cluster_root : Nat
  volume_serial : Nat
  fs_revision : Nat
  volume_flags : Nat
  bytes_per_sector_shift : Nat
  sectors_per_cluster_shift : Nat
  num_fats : Nat
  drive_select : Nat
  percent_in_use : Nat
  reserved : List Nat
  boot_signature : Nat
deriving Repr, BEq, DecidableEq

/-- `exfat_compare.parse_boot_sector`.  All `struct.unpack` calls and the
single-byte indexings raise on a boot sector shorter than 512 bytes
(the last unpack needs data[510:512]); with 512 bytes available every
field parses. -/
def parse_boot_sector (data : List Nat) : Except PyErr ExfatBootFields :=
  if data.length < 512 then .error .structError
  else .ok
    { jump_boot := pySlice data 0 3
      fs_name := asciiIgnore (pySlice data 3 11)
      must_be_zero := pySlice data 11 64
      partition_offset := u64 data 64
      volume_length := u64 data 72
      fat_offset := u32 data 80
      fat_length := u32 data 84
      cluster_heap_offset := u32 data 88
      cluster_count := u32 data 92
      first_cluster_root := u32 data 96
      volume_serial := u32 data 100
      fs_revision := u16 data 104
      volume_flags := u16 data 106
      bytes_per_sector_shift := u8 data 108
      sectors_per_cluster_shift := u8 data 109
      num_fats := u8 data 110
      drive_select := u8 data 111
      percent_in_use := u8 data 112
      reserved := pySlice data 113 120
      boot_signature := u16 data 510 }

/-- The parsed dict as an ordered key/value list (Python dicts preserve
insertion order, and `compare_devices` iterates `for key in fields1`). -/
def boot_field_list (f : ExfatBootFields) : List (String × FieldVal) :=
  [("jump_boot", .bytes f.jump_boot),
   ("fs_name", .bytes f.fs_name),
   ("must_be_zero", .bytes f.must_be_zero),
   ("partition_offset", .num f.partition_offset),
   ("volume_length", .num f.volume_length),
   ("fat_offset", .num f.fat_offset),
   ("fat_length", .num f.fat_length),
   ("cluster_heap_offset", .num f.cluster_heap_offset),
   ("cluster_count", .num f.cluster_count),
   ("first_cluster_root", .num f.first_cluster_root),
   ("volume_serial", .num f.volume_serial),
   ("fs_revision", .num f.fs_revision),
   ("volume_flags", .num f.volume_flags),
   ("bytes_per_sector_shift", .num f.bytes_per_sector_shift),
   ("sectors_per_cluster_shift", .num f.sectors_per_cluster_shift),
   ("num_fats", .num f.num_fats),
   ("drive_select", .num f.drive_select),
   ("percent_in_use", .num f.percent_in_use),
   ("reserved", .bytes f.reserved),
   ("boot_signature", .num f.boot_signature)]

/-- One output line of the boot-sector comparison loop: a DIFF line for a
differing field, an OK line (with the shared value) for a matching field. -/
inductive DiffLine where
  | diff (field : String) (value_a value_b : FieldVal)
  | ok (field : String) (value : FieldVal)
deriving Repr, BEq, DecidableEq

def isDiffLine : DiffLine → Bool
  | .diff _ _ _ => true
  | .ok _ _ => false

/-- The boot-sector comparison loop of `exfat_compare.compare_devices`
(lines 146-151): one line per key of fields1, DIFF when the two values
differ, OK otherwise.  Both dicts come from `parse_boot_sector`, so they
have the same keys in the same order. -/
def compare_boot_fields (f1 f2 : ExfatBootFields) : List DiffLine :=
  ((boot_field_list f1).zip (boot_field_list f2)).map
    (fun p => if p.1.2 = p.2.2 then .ok p.1.1 p.1.2 else .diff p.1.1 p.1.2 p.2.2)

/-- C7 (corrected): the field diff emits exactly one DIFF record for each
differing field — two boot records identical except for `volume_serial`
produce exactly one mismatch record, for `volume_serial` — but matches are
not implicit: every equal field is surfaced as an OK record, so the full
report always has one record per field (20 for exFAT). -/
theorem c7_field_diff (f1 : ExfatBootFields) (x : Nat) (hx : x ≠ f1.volume_serial) :
    ((compare_boot_fields f1 { f1 with volume_serial := x }).filter isDiffLine)
        = [DiffLine.diff "volume_serial" (.num f1.volume_serial) (.num x)] ∧
      (∀ f : ExfatBootFields,
        (compare_boot_fields f f).filter isDiffLine = [] ∧
          (compare_boot_fields f f).length = 20) := by
  constructor
  · have hx' : f1.volume_serial ≠ x := Ne.symm hx
    simp [compare_boot_fields, boot_field_list, isDiffLine, hx']
  · intro f
    constructor
    · simp [compare_boot_fields, boot_field_list, isDiffLine]
    · simp [compare_boot_fields, boot_field_list]

/-- A concrete all-zero parsed boot record (the parse of 512 zero bytes). -/
def c7_zero_fields : ExfatBootFields :=
  { jump_boot := List.replicate 3 0
    fs_name := List.replicate 8 0
    must_be_zero := List.replicate 53 0
    partition_offset := 0
    volume_length := 0
    fat_offset := 0
    fat_length := 0
    cluster_heap_offset := 0
    cluster_count := 0
    first_cluster_root := 0
    volume_serial := 0
    fs_revision := 0
    volume_flags := 0
    bytes_per_sector_shift := 0
    sectors_per_cluster_shift := 0
    num_fats := 0
    drive_select := 0
    percent_in_use := 0
    reserved := List.replicate 7 0
    boot_signature := 0 }

theorem c7_field_diff_witness :
    ((compare_boot_fields c7_zero_fields { c7_zero_fields with volume_serial := 1 }).filter
        isDiffLine)
      = [DiffLine.diff "volume_serial" (.num 0) (.num 1)] :=
  (c7_field_diff c7_zero_fields 1 (by decide)).1

/-- C7 counterexample: on two identical parsed boot sectors (the parse of
512 zero bytes compared with itself) every field matches, yet the
comparison emits 20 records (all OK lines): matches are surfaced, not
implicit, refuting "emits no record for any field whose values are
equal". -/
theorem c7_match_surfaced_counterexample :
    (parse_boot_sector (List.replicate 512 0)).map
        (fun f => ((compare_boot_fields f f).length,
          ((compare_boot_fields f f).filter isDiffLine).length))
      = .ok (20, 0) := rfl

/-- One sequential 4-byte FAT-entry read of `compare_fat_entries`
(`f.seek(fat_offset * 512)` then the i-th `f.read(4)`), `struct.error`
when fewer than 4 bytes remain. -/
def readFatEntry (dev : List Nat) (fat_offset i : Nat) : Except PyErr Nat :=
  if fat_offset * 512 + 4 * i + 4 ≤ dev.length then
    .ok (u32 dev (fat_offset * 512 + 4 * i))
  else .error .structError

/-- A FAT mismatch record printed by `compare_fat_entries`. -/
structure FatDiff where
  index : Nat
  value_a : Nat
  value_b : Nat
deriving Repr, BEq, DecidableEq

/-- The loop of `exfat_compare.compare_fat_entries`: at each index read a
4-byte entry from each device (device 1 first, as in the source), record a
mismatch when they differ. -/
def compareFatLoop (dev1 dev2 : List Nat) (fat_offset : Nat) :
    Nat → Nat → List FatDiff → Except PyErr (List FatDiff)
  | _, 0, acc => .ok acc
  | i, n + 1, acc =>
    match readFatEntry dev1 fat_offset i with
    | .error e => .error e
    | .ok entry1 =>
      match readFatEntry dev2 fat_offset i with
      | .error e => .error e
      | .ok entry2 =>
        compareFatLoop dev1 dev2 fat_offset (i + 1) n
          (if entry1 ≠ entry2 then acc ++ [FatDiff.mk i entry1 entry2] else acc)

/-- `exfat_compare.compare_fat_entries`: read the first `num_entries`
32-bit FAT entries of BOTH devices at the SAME `fat_offset`, and emit a
record for every position where they differ. -/
def compare_fat_entries (dev1 dev2 : List Nat) (fat_offset : Nat)
    (num_entries : Nat := 20) : Except PyErr (List FatDiff) :=
  compareFatLoop dev1 dev2 fat_offset 0 num_entries []

/-- The FAT comparison step of `exfat_compare.compare_devices` (line 177):
both devices' FAT regions are located with `fields1['fat_offset']`, the
fat_offset decoded from DEVICE 1's boot sector. -/
def compare_devices_fat (dev1 dev2 : List Nat) : Except PyErr (List FatDiff) :=
  match parse_boot_sector dev1 with
  | .error e => .error e
  | .ok fields1 => compare_fat_entries dev1 dev2 fields1.fat_offset

theorem compareFatLoop_congr_left (dev1 dev1' dev2 : List Nat) (off : Nat) :
    ∀ (n i : Nat) (acc : List FatDiff),
      (∀ j, i ≤ j → j < i + n → readFatEntry dev1 off j = readFatEntry dev1' off j) →
      compareFatLoop dev1 dev2 off i n acc = compareFatLoop dev1' dev2 off i n acc := by
  intro n
  induction n with
  | zero => intro i acc _; rfl
  | succ m ih =>
    intro i acc h
    have hi : readFatEntry dev1 off i = readFatEntry dev1' off i :=
      h i (Nat.le_refl i) (by omega)
    simp only [compareFatLoop, hi]
    cases readFatEntry dev1' off i with
    | error e => rfl
    | ok entry1 =>
      cases readFatEntry dev2 off i with
      | error e => rfl
      | ok entry2 =>
        exact ih (i + 1) _ (fun j h1 h2 => h j (by omega) (by omega))

/-- C8 (corrected): the FAT entries reported for side B are NOT a function
of side B's bytes alone — both sides are read at side A's `fat_offset` —
but that is the only cross-talk channel: whenever two A-side devices
decode to the same `fat_offset` and their own FAT windows at that offset
agree, the whole FAT comparison (in particular everything reported for B)
is unchanged.  Boot-sector parsing of side B (`parse_boot_sector dev2`)
and B's root-directory decode (`read_root_directory dev2 ...`) take only
side B's bytes and B's own decoded parameters. -/
theorem c8_fat_cross_talk_channel (dA dA' dB : List Nat) (fA fA' : ExfatBootFields)
    (h1 : parse_boot_sector dA = .ok fA) (h2 : parse_boot_sector dA' = .ok fA')
    (hoff : fA.fat_offset = fA'.fat_offset)
    (hwin : ∀ i, i < 20 → readFatEntry dA fA.fat_offset i = readFatEntry dA' fA.fat_offset i) :
    compare_devices_fat dA dB = compare_devices_fat dA' dB := by
  unfold compare_devices_fat
  rw [h1, h2]
  dsimp only
  rw [← hoff]
  unfold compare_fat_entries
  apply compareFatLoop_congr_left
  intro j _ hj
  exact hwin j (by omega)

/-- Device A with fat_offset 0 (all zeros). -/
def c8_devA0 : List Nat := List.replicate 592 0

/-- Device A with fat_offset 1 (byte 80, the low byte of the FatOffset
field, set to 1); identical to `c8_devA0` everywhere else. -/
def c8_devA1 : List Nat := List.replicate 80 0 ++ [1] ++ List.replicate 511 0

/-- Device A differing from `c8_devA0` only at byte 200, which is neither
a FAT-window byte at offset 0 nor part of any field that changes
`fat_offset`. -/
def c8_devA2 : List Nat := List.replicate 200 0 ++ [9] ++ List.replicate 391 0

/-- Device B: u32 value 1 at each of the first 20 entries of sector 0,
u32 value 2 at each of the first 20 entries of sector 1. -/
def c8_devB : List Nat :=
  (List.replicate 20 [1, 0, 0, 0]).flatten ++ List.replicate 432 0
    ++ (List.replicate 20 [2, 0, 0, 0]).flatten

/-- C8 counterexample: holding side B fixed and changing only side A's
boot-record FatOffset field (byte 80) changes the values reported for
side B: with A's fat_offset 0 the comparison reports B's entries as 20
ones, with A's fat_offset 1 it reports B's entries as 20 twos. -/
theorem c8_cross_talk_counterexample :
    (compare_devices_fat c8_devA0 c8_devB).map (List.map FatDiff.value_b)
        = .ok (List.replicate 20 1) ∧
      (compare_devices_fat c8_devA1 c8_devB).map (List.map FatDiff.value_b)
        = .ok (List.replicate 20 2) := by
  constructor
  · rfl
  · rfl

theorem c8_fat_cross_talk_witness :
    compare_devices_fat c8_devA0 c8_devB = compare_devices_fat c8_devA2 c8_devB :=
  c8_fat_cross_talk_channel c8_devA0 c8_devA2 c8_devB c7_zero_fields c7_zero_fields
    rfl rfl rfl (by decide)

/-! ## ext4 deep analyzer (`ext4_hexdump.Ext4DeepAnalyzer`).
The analyzer runs on a byte source; in the normal (non-Windows-device)
mode every read is `read_at` (seek + read, short near end of medium).
`struct.unpack_from` raises struct.error on data too short, and the
`//` computations raise ZeroDivisionError on a zero divisor; both abort
`analyze` and are modelled as `Except.error`. -/

/-- The ext4 extended superblock fields (offsets 0x150-0x200), parsed only
when `s_rev_level >= 1` and at least 0x200 bytes were read; `s_checksum` is
parsed in addition only when the METADATA_CSUM ro-compat bit is set. -/
structure SbExt where
  s_blocks_count_hi : Nat
  s_r_blocks_count_hi : Nat
  s_free_blocks_count_hi : Nat
  s_min_extra_isize : Nat
  s_want_extra_isize : Nat
  s_flags : Nat
  s_raid_stride : Nat
  s_mmp_interval : Nat
  s_mmp_block : Nat
  s_raid_stripe_width : Nat
  s_log_groups_per_flex : Nat
  s_checksum_type : Nat
  s_encryption_level : Nat
  s_reserved_pad : Nat
  s_kbytes_written : Nat
  s_snapshot_inum : Nat
  s_snapshot_id : Nat
  s_snapshot_r_blocks_count : Nat
  s_snapshot_list : Nat
  s_error_count : Nat
  s_first_error_time : Nat
  s_first_error_ino : Nat
  s_first_error_block : Nat
  s_first_error_func : List Nat
  s_first_error_line : Nat
  s_last_error_time : Nat
  s_last_error_ino : Nat
  s_last_error_line : Nat
  s_last_error_block : Nat
  s_last_error_func : List Nat
  s_checksum : Option Nat
deriving Repr, BEq, DecidableEq

/-- The ext4 superblock record of `parse_superblock`: the unconditionally
parsed fields, the optional extended block, and the derived values
(`block_size`, `blocks_count`) the source stores alongside. -/
structure Superblock where
  s_inodes_count : Nat
  s_blocks_count_lo : Nat
  s_r_blocks_count_lo : Nat
  s_free_blocks_count_lo : Nat
  s_free_inodes_count : Nat
  s_first_data_block : Nat
  s_log_block_size : Nat
  s_log_cluster_size : Nat
  s_blocks_per_group : Nat
  s_clusters_per_group : Nat
  s_inodes_per_group : Nat
  s_mtime : Nat
  s_wtime : Nat
  s_mnt_count : Nat
  s_max_mnt_count : Nat
  s_magic : Nat
  s_state : Nat
  s_errors : Nat
  s_minor_rev_level : Nat
  s_lastcheck : Nat
  s_checkinterval : Nat
  s_creator_os : Nat
  s_rev_level : Nat
  s_def_resuid : Nat
  s_def_resgid : Nat
  s_first_ino : Nat
  s_inode_size : Nat
  s_block_group_nr : Nat
  s_feature_compat : Nat
  s_feature_incompat : Nat
  s_feature_ro_compat : Nat
  s_uuid : List Nat
  s_volume_name : List Nat
  s_last_mounted : List Nat
  s_algorithm_usage_bitmap : Nat
  s_prealloc_blocks : Nat
  s_prealloc_dir_blocks : Nat
  s_reserved_gdt_blocks : Nat
  s_journal_uuid : List Nat
  s_journal_inum : Nat
  s_journal_dev : Nat
  s_last_orphan : Nat
  s_hash_seed : List Nat
  s_def_hash_version : Nat
  s_jnl_backup_type : Nat
  s_desc_size : Nat
  s_default_mount_opts : Nat
  s_first_meta_bg : Nat
  s_mkfs_time : Nat
  ext : Option SbExt
  block_size : Nat
  blocks_count : Nat
deriving Repr, BEq, DecidableEq

/-- The extended-field block read at offsets 0x150-0x200 (plus the optional
checksum at 0x3FC). -/
def mkSbExt (data : List Nat) (csum : Option Nat) : SbExt :=
  { s_blocks_count_hi := u32 data 0x150
    s_r_blocks_count_hi := u32 data 0x154
    s_free_blocks_count_hi := u32 data 0x158
    s_min_extra_isize := u16 data 0x15C
    s_want_extra_isize := u16 data 0x15E
    s_flags := u32 data 0x160
    s_raid_stride := u16 data 0x164
    s_mmp_interval := u16 data 0x166
    s_mmp_block := u64 data 0x168
    s_raid_stripe_width := u32 data 0x170
    s_log_groups_per_flex := u8 data 0x174
    s_checksum_type := u8 data 0x175
    s_encryption_level := u8 data 0x176
    s_reserved_pad := u8 data 0x177
    s_kbytes_written := u64 data 0x178
    s_snapshot_inum := u32 data 0x180
    s_snapshot_id := u32 data 0x184
    s_snapshot_r_blocks_count := u64 data 0x188
    s_snapshot_list := u32 data 0x190
    s_error_count := u32 data 0x194
    s_first_error_time := u32 data 0x198
    s_first_error_ino := u32 data 0x19C
    s_first_error_block := u64 data 0x1A0
    s_first_error_func := rstrip0 (pySlice data 0x1A8 0x1C8)
    s_first_error_line := u32 data 0x1C8
    s_last_error_time := u32 data 0x1CC
    s_last_error_ino := u32 data 0x1D0
    s_last_error_line := u32 data 0x1D4
    s_last_error_block := u64 data 0x1D8
    s_last_error_func := rstrip0 (pySlice data 0x1E0 0x200)
    s_checksum := csum }

/-- The unconditionally parsed superblock fields plus the derived values,
assembled around a given (possibly absent) extended block. -/
def mkSuperblock (data : List Nat) (ext : Option SbExt) : Superblock :=
  { s_inodes_count := u32 data 0x00
    s_blocks_count_lo := u32 data 0x04
    s_r_blocks_count_lo := u32 data 0x08
    s_free_blocks_count_lo := u32 data 0x0C
    s_free_inodes_count := u32 data 0x10
    s_first_data_block := u32 data 0x14
    s_log_block_size := u32 data 0x18
    s_log_cluster_size := u32 data 0x1C
    s_blocks_per_group := u32 data 0x20
    s_clusters_per_group := u32 data 0x24
    s_inodes_per_group := u32 data 0x28
    s_mtime := u32 data 0x2C
    s_wtime := u32 data 0x30
    s_mnt_count := u16 data 0x34
    s_max_mnt_count := u16 data 0x36
    s_magic := u16 data 0x38
    s_state := u16 data 0x3A
    s_errors := u16 data 0x3C
    s_minor_rev_level := u16 data 0x3E
    s_lastcheck := u32 data 0x40
    s_checkinterval := u32 data 0x44
    s_creator_os := u32 data 0x48
    s_rev_level := u32 data 0x4C
    s_def_resuid := u16 data 0x50
    s_def_resgid := u16 data 0x52
    s_first_ino := u32 data 0x54
    s_inode_size := u16 data 0x58
    s_block_group_nr := u16 data 0x5A
    s_feature_compat := u32 data 0x5C
    s_feature_incompat := u32 data 0x60
    s_feature_ro_compat := u32 data 0x64
    s_uuid := pySlice data 0x68 0x78
    s_volume_name := rstrip0 (pySlice data 0x78 0x88)
    s_last_mounted := rstrip0 (pySlice data 0x88 0xC8)
    s_algorithm_usage_bitmap := u32 data 0xC8
    s_prealloc_blocks := u8 data 0xCC
    s_prealloc_dir_blocks := u8 data 0xCD
    s_reserved_gdt_blocks := u16 data 0xCE
    s_journal_uuid := pySlice data 0xD0 0xE0
    s_journal_inum := u32 data 0xE0
    s_journal_dev := u32 data 0xE4
    s_last_orphan := u32 data 0xE8
    s_hash_seed := [u32 data 0xEC, u32 data 0xF0, u32 data 0xF4, u32 data 0xF8]
    s_def_hash_version := u8 data 0xFC
    s_jnl_backup_type := u8 data 0xFD
    s_desc_size := u16 data 0xFE
    s_default_mount_opts := u32 data 0x100
    s_first_meta_bg := u32 data 0x104
    s_mkfs_time := u32 data 0x108
    ext := ext
    block_size := 1024 <<< u32 data 0x18
    blocks_count :=
      match ext with
      | some e => u32 data 0x04 ||| (e.s_blocks_count_hi <<< 32)
      | none => u32 data 0x04 }

/-- `Ext4DeepAnalyzer.parse_superblock` on the bytes read at the superblock
offset.  The unconditional `struct.unpack_from` calls need 0x10C bytes; the
extended block is parsed when `s_rev_level >= 1` and `len(data) >= 0x200`,
and its conditional checksum read at 0x3FC raises when the buffer ends
before 0x400. -/
def parse_superblock (data : List Nat) : Except PyErr Superblock :=
  if data.length < 0x10C then .error .structError
  else if 1 ≤ u32 data 0x4C ∧ 0x200 ≤ data.length then
    if u32 data 0x64 &&& 0x400 ≠ 0 ∧ data.length < 0x400 then .error .structError
    else
      .ok (mkSuperblock data
        (some (mkSbExt data
          (if u32 data 0x64 &&& 0x400 ≠ 0 then some (u32 data 0x3FC) else none))))
  else .ok (mkSuperblock data none)

/-- The 64-bit half of a block-group descriptor (desc_size >= 64). -/
structure BgHi where
  bg_block_bitmap_hi : Nat
  bg_inode_bitmap_hi : Nat
  bg_inode_table_hi : Nat
  bg_free_blocks_count_hi : Nat
  bg_free_inodes_count_hi : Nat
  bg_used_dirs_count_hi : Nat
  bg_itable_unused_hi : Nat
  bg_exclude_bitmap_hi : Nat
  bg_block_bitmap_csum_hi : Nat
  bg_inode_bitmap_csum_hi : Nat
deriving Repr, BEq, DecidableEq

structure BgDesc where
  bg_block_bitmap_lo : Nat
  bg_inode_bitmap_lo : Nat
  bg_inode_table_lo : Nat
  bg_free_blocks_count_lo : Nat
  bg_free_inodes_count_lo : Nat
  bg_used_dirs_count_lo : Nat
  bg_flags : Nat
  bg_exclude_bitmap_lo : Nat
  bg_block_bitmap_csum_lo : Nat
  bg_inode_bitmap_csum_lo : Nat
  bg_itable_unused_lo : Nat
  bg_checksum : Nat
  hi : Option BgHi
deriving Repr, BEq, DecidableEq

/-- `Ext4DeepAnalyzer.parse_block_group_descriptor`: descriptors start at
block 2 for 1024-byte blocks, else block 1; a zero `s_desc_size` falls back
to 32.  The 32-bit fields need 0x20 bytes; the 64-bit fields, read when
`desc_size >= 64`, need 0x3C bytes. -/
def parse_block_group_descriptor (disk : List Nat) (sb : Superblock)
    (block_size bg_num : Nat) : Except PyErr BgDesc :=
  let desc_size := if sb.s_desc_size = 0 then 32 else sb.s_desc_size
  let desc_block := if block_size = 1024 then 2 else 1
  let offset := desc_block * block_size + bg_num * desc_size
  let data := read_at disk offset desc_size
  if data.length < 0x20 then .error .structError
  else if 64 ≤ desc_size ∧ data.length < 0x3C then .error .structError
  else
    .ok
      { bg_block_bitmap_lo := u32 data 0x00
        bg_inode_bitmap_lo := u32 data 0x04
        bg_inode_table_lo := u32 data 0x08
        bg_free_blocks_count_lo := u16 data 0x0C
        bg_free_inodes_count_lo := u16 data 0x0E
        bg_used_dirs_count_lo := u16 data 0x10
        bg_flags := u16 data 0x12
        bg_exclude_bitmap_lo := u32 data 0x14
        bg_block_bitmap_csum_lo := u16 data 0x18
        bg_inode_bitmap_csum_lo := u16 data 0x1A
        bg_itable_unused_lo := u16 data 0x1C
        bg_checksum := u16 data 0x1E
        hi :=
          if 64 ≤ desc_size then
            some
              { bg_block_bitmap_hi := u32 data 0x20
                bg_inode_bitmap_hi := u32 data 0x24
                bg_inode_table_hi := u32 data 0x28
                bg_free_blocks_count_hi := u16 data 0x2C
                bg_free_inodes_count_hi := u16 data 0x2E
                bg_used_dirs_count_hi := u16 data 0x30
                bg_itable_unused_hi := u16 data 0x32
                bg_exclude_bitmap_hi := u32 data 0x34
                bg_block_bitmap_csum_hi := u16 data 0x38
                bg_inode_bitmap_csum_hi := u16 data 0x3A }
          else none }

structure InodeRecord where
  i_mode : Nat
  i_uid : Nat
  i_size_lo : Nat
  i_atime : Nat
  i_ctime : Nat
  i_mtime : Nat
  i_dtime : Nat
  i_gid : Nat
  i_links_count : Nat
  i_blocks_lo : Nat
  i_flags : Nat
deriving Repr, BEq, DecidableEq

/-- `Ext4DeepAnalyzer.check_inode`: locate the inode through its block
group.  `(inode_num - 1) // inodes_per_group` raises ZeroDivisionError when
`s_inodes_per_group` is 0; a short or empty inode read returns None; a
positive `inode_size` smaller than 0x24 makes the field unpacks raise. -/
def check_inode (disk : List Nat) (sb : Superblock) (block_size inode_num : Nat) :
    Except PyErr (Option InodeRecord) :=
  if inode_num < 1 then .ok none
  else if sb.s_inodes_per_group = 0 then .error .zeroDivision
  else
    let bg_num := (inode_num - 1) / sb.s_inodes_per_group
    let local_inode := (inode_num - 1) % sb.s_inodes_per_group
    match parse_block_group_descriptor disk sb block_size bg_num with
    | .error e => .error e
    | .ok bg =>
      let inode_table_block :=
        match bg.hi with
        | some h => bg.bg_inode_table_lo ||| (h.bg_inode_table_hi <<< 32)
        | none => bg.bg_inode_table_lo
      let offset := inode_table_block * block_size + local_inode * sb.s_inode_size
      let data := read_at disk offset sb.s_inode_size
      if data.length = 0 ∨ data.length < sb.s_inode_size then .ok none
      else if data.length < 0x24 then .error .structError
      else
        .ok (some
          { i_mode := u16 data 0x00
            i_uid := u16 data 0x02
            i_size_lo := u32 data 0x04
            i_atime := u32 data 0x08
            i_ctime := u32 data 0x0C
            i_mtime := u32 data 0x10
            i_dtime := u32 data 0x14
            i_gid := u16 data 0x18
            i_links_count := u16 data 0x1A
            i_blocks_lo := u32 data 0x1C
            i_flags := u32 data 0x20 })

/-- A Critical finding of the deep analysis (`result['issues']`), tagged by
which check produced it, carrying the same data the printed message carries. -/
inductive Issue where
  | invalidMagic (magic : Nat)
  | notCleanlyUnmounted (state : Nat)
  | orphanListNotEmpty (firstOrphan : Nat)
  | recordedErrors (count : Nat)
  | firstErrorAt (time : Nat)
  | firstErrorFunction (func : List Nat)
  | lastErrorAt (time : Nat)
  | cannotReadRootInode
  | rootNotDirectory (mode : Nat)
  | rootNoPermissions
  | rootLinksTooLow (links : Nat)
  | invalidBlockBitmap (bg : Nat)
  | invalidInodeBitmap (bg : Nat)
  | invalidInodeTable (bg : Nat)
  | missingBgChecksum (bg : Nat)
  | journalInodeZero
  | journalNeedsRecovery
deriving Repr, BEq, DecidableEq

/-- A `result['warnings']` entry. -/
inductive ExtWarning where
  | sixtyFourBitHighBitsMissing
deriving Repr, BEq, DecidableEq

/-- A `result['info']` entry;  the source formats the filesystem size as a
GB float and the group count inline — the underlying integers are stored
here. -/
inductive InfoItem where
  | filesystemSizeBytes (bytes : Nat)
  | blockGroups (count : Nat)
deriving Repr, BEq, DecidableEq

/-- `Ext4DeepAnalyzer.check_root_inode`. -/
def check_root_inode (disk : List Nat) (sb : Superblock) (block_size : Nat) :
    Except PyErr (List Issue) :=
  match check_inode disk sb block_size 2 with
  | .error e => .error e
  | .ok none => .ok [Issue.cannotReadRootInode]
  | .ok (some root_inode) =>
    .ok
      ((if root_inode.i_mode &&& 0xF000 ≠ 0x4000 then
          [Issue.rootNotDirectory root_inode.i_mode] else [])
        ++ (if root_inode.i_mode &&& 0x1FF = 0 then [Issue.rootNoPermissions] else [])
        ++ (if root_inode.i_links_count < 2 then
              [Issue.rootLinksTooLow root_inode.i_links_count] else []))

/-- `Ext4DeepAnalyzer.check_orphan_list`. -/
def check_orphan_list (sb : Superblock) : List Issue :=
  if sb.s_last_orphan ≠ 0 then [Issue.orphanListNotEmpty sb.s_last_orphan] else []

/-- `Ext4DeepAnalyzer.check_error_state`: all its fields live in the
conditional extended block ('s_error_count' in self.sb), so with no
extended block it reports nothing.  (The timestamps are rendered with
datetime at print time; the raw values are carried here.) -/
def check_error_state (sb : Superblock) : List Issue :=
  match sb.ext with
  | none => []
  | some e =>
    if e.s_error_count > 0 then
      [Issue.recordedErrors e.s_error_count]
        ++ (if e.s_first_error_time > 0 then
              [Issue.firstErrorAt e.s_first_error_time]
                ++ (if e.s_first_error_func ≠ [] then
                      [Issue.firstErrorFunction e.s_first_error_func] else [])
            else [])
        ++ (if e.s_last_error_time > 0 then [Issue.lastErrorAt e.s_last_error_time] else [])
    else []

/-- The per-group findings of `check_block_groups`' loop body. -/
def bgCheckIssues (sb : Superblock) (bg_num : Nat) (bg : BgDesc) : List Issue :=
  (if bg.bg_block_bitmap_lo = 0 then [Issue.invalidBlockBitmap bg_num] else [])
    ++ (if bg.bg_inode_bitmap_lo = 0 then [Issue.invalidInodeBitmap bg_num] else [])
    ++ (if bg.bg_inode_table_lo = 0 then [Issue.invalidInodeTable bg_num] else [])
    ++ (if sb.s_feature_ro_compat &&& 0x10 ≠ 0 ∧ bg.bg_checksum = 0 then
          [Issue.missingBgChecksum bg_num] else [])

/-- The loop of `check_block_groups` over the first `min num_groups 5`
groups (the free-block/free-inode accumulators of the source are dead for
the produced issues and are not modelled). -/
def bgLoop (disk : List Nat) (sb : Superblock) (block_size : Nat) :
    Nat → Nat → List Issue → Except PyErr (List Issue)
  | _, 0, acc => .ok acc
  | bg_num, n + 1, acc =>
    match parse_block_group_descriptor disk sb block_size bg_num with
    | .error e => .error e
    | .ok bg => bgLoop disk sb block_size (bg_num + 1) n (acc ++ bgCheckIssues sb bg_num bg)

/-- `Ext4DeepAnalyzer.check_block_groups`: `num_groups` is computed with a
ceiling division by `s_blocks_per_group` (ZeroDivisionError when zero), and
only the first 5 groups are checked. -/
def check_block_groups (disk : List Nat) (sb : Superblock) (block_size : Nat) :
    Except PyErr (List Issue) :=
  if sb.s_blocks_per_group = 0 then .error .zeroDivision
  else
    let num_groups := (sb.blocks_count + sb.s_blocks_per_group - 1) / sb.s_blocks_per_group
    bgLoop disk sb block_size 0 (min num_groups 5) []

structure AnalyzeResult where
  superblock : Superblock
  issues : List Issue
  warnings : List ExtWarning
  info : List InfoItem
deriving Repr, BEq, DecidableEq

/-- `Ext4DeepAnalyzer.analyze`: parse the superblock at offset 1024, stop
with only the invalid-magic Issue when the magic is wrong, otherwise run
the state, orphan, error-state, root-inode, block-group and journal checks
in source order and collect their issues. -/
def analyze (disk : List Nat) : Except PyErr AnalyzeResult :=
  let data := read_at disk 1024 1024
  match parse_superblock data with
  | .error e => .error e
  | .ok sb =>
    if sb.s_magic ≠ 0xEF53 then
      .ok { superblock := sb, issues := [Issue.invalidMagic sb.s_magic],
            warnings := [], info := [] }
    else
      let stateIssues :=
        if sb.s_state ≠ 0x0001 then [Issue.notCleanlyUnmounted sb.s_state] else []
      match check_root_inode disk sb sb.block_size with
      | .error e => .error e
      | .ok rootIssues =>
        match check_block_groups disk sb sb.block_size with
        | .error e => .error e
        | .ok bgIssues =>
          let journalIssues :=
            if sb.s_feature_compat &&& 0x0004 ≠ 0 then
              if sb.s_journal_inum = 0 then [Issue.journalInodeZero]
              else if sb.s_feature_incompat &&& 0x0004 ≠ 0 then [Issue.journalNeedsRecovery]
              else []
            else []
          let warnings :=
            if sb.s_feature_incompat &&& 0x0080 ≠ 0 ∧ sb.ext.isNone then
              [ExtWarning.sixtyFourBitHighBitsMissing]
            else []
          .ok
            { superblock := sb
              issues := stateIssues ++ check_orphan_list sb ++ check_error_state sb
                ++ rootIssues ++ bgIssues ++ journalIssues
              warnings := warnings
              info := [InfoItem.filesystemSizeBytes (sb.blocks_count * sb.block_size),
                InfoItem.blockGroups
                  ((sb.blocks_count + sb.s_blocks_per_group - 1) / sb.s_blocks_per_group)] }

/-- C9 (confirmed): when the decoded magic is not 0xEF53, `analyze` stops
immediately after recording the single invalid-magic Critical Issue: the
result carries exactly that one issue, no warnings and no info, and no
group-descriptor- or inode-dependent check runs. -/
theorem c9_invalid_magic_short_circuit (disk : List Nat) (sb : Superblock)
    (hp : parse_superblock (read_at disk 1024 1024) = .ok sb)
    (hm : sb.s_magic ≠ 0xEF53) :
    analyze disk
      = .ok ⟨sb, [Issue.invalidMagic sb.s_magic], [], []⟩ := by
  unfold analyze
  simp only [hp]
  rw [if_pos hm]

/-- The superblock decoded from an all-zero image (magic 0, not ext4). -/
def c9_zero_sb : Superblock :=
  { s_inodes_count := 0
    s_blocks_count_lo := 0
    s_r_blocks_count_lo := 0
    s_free_blocks_count_lo := 0
    s_free_inodes_count := 0
    s_first_data_block := 0
    s_log_block_size := 0
    s_log_cluster_size := 0
    s_blocks_per_group := 0
    s_clusters_per_group := 0
    s_inodes_per_group := 0
    s_mtime := 0
    s_wtime := 0
    s_mnt_count := 0
    s_max_mnt_count := 0
    s_magic := 0
    s_state := 0
    s_errors := 0
    s_minor_rev_level := 0
    s_lastcheck := 0
    s_checkinterval := 0
    s_creator_os := 0
    s_rev_level := 0
    s_def_resuid := 0
    s_def_resgid := 0
    s_first_ino := 0
    s_inode_size := 0
    s_block_group_nr := 0
    s_feature_compat := 0
    s_feature_incompat := 0
    s_feature_ro_compat := 0
    s_uuid := List.replicate 16 0
    s_volume_name := []
    s_last_mounted := []
    s_algorithm_usage_bitmap := 0
    s_prealloc_blocks := 0
    s_prealloc_dir_blocks := 0
    s_reserved_gdt_blocks := 0
    s_journal_uuid := List.replicate 16 0
    s_journal_inum := 0
    s_journal_dev := 0
    s_last_orphan := 0
    s_hash_seed := [0, 0, 0, 0]
    s_def_hash_version := 0
    s_jnl_backup_type := 0
    s_desc_size := 0
    s_default_mount_opts := 0
    s_first_meta_bg := 0
    s_mkfs_time := 0
    ext := none
    block_size := 1024
    blocks_count := 0 }

theorem c9_invalid_magic_witness :
    analyze (List.replicate 1292 0)
      = .ok ⟨c9_zero_sb, [Issue.invalidMagic 0], [], []⟩ :=
  c9_invalid_magic_short_circuit (List.replicate 1292 0) c9_zero_sb rfl (by decide)

/-- The C4 failing input: a 1292-byte image whose superblock has the valid
magic 0xEF53 (bytes 0x38-0x39 of the superblock, absolute offsets
1080-1081) and every other field zero — in particular
`s_inodes_per_group = 0`. -/
def c4_disk : List Nat :=
  List.replicate 1080 0 ++ [0x53, 0xEF] ++ List.replicate 210 0

/-- C4 (code_bug): on a readable header whose decoded `s_inodes_per_group`
is 0, the decode-and-validate pass does not return a result record with
Issues — `check_inode` evaluates `(inode_num - 1) // inodes_per_group` and
the analysis dies with an uncaught ZeroDivisionError. -/
theorem c4_zero_inodes_per_group_crash :
    analyze c4_disk = .error .zeroDivision ∧
      (parse_superblock (read_at c4_disk 1024 1024)).map
          (fun sb => (sb.s_magic, sb.s_inodes_per_group))
        = .ok (0xEF53, 0) :=
  ⟨rfl, rfl⟩

/-- Does an Issue reference the conditionally-parsed extended error fields
(`s_error_count`, first/last error data)? -/
def referencesExtendedErrorFields : Issue → Bool
  | .recordedErrors _ => true
  | .firstErrorAt _ => true
  | .firstErrorFunction _ => true
  | .lastErrorAt _ => true
  | _ => false

theorem parse_rev0_ext_none (data : List Nat) (sb : Superblock)
    (hp : parse_superblock data = .ok sb) (hrev : sb.s_rev_level = 0) :
    sb.ext = none := by
  unfold parse_superblock at hp
  by_cases h1 : data.length < 0x10C
  · rw [if_pos h1] at hp; exact Except.noConfusion hp
  · rw [if_neg h1] at hp
    by_cases h2 : 1 ≤ u32 data 0x4C ∧ 0x200 ≤ data.length
    · rw [if_pos h2] at hp
      by_cases h3 : u32 data 0x64 &&& 0x400 ≠ 0 ∧ data.length < 0x400
      · rw [if_pos h3] at hp; exact Except.noConfusion hp
      · rw [if_neg h3] at hp
        injection hp with h
        subst h
        simp only [mkSuperblock] at hrev
        omega
    · rw [if_neg h2] at hp
      injection hp with h
      subst h
      simp [mkSuperblock]

theorem check_error_state_of_ext_none (sb : Superblock) (h : sb.ext = none) :
    check_error_state sb = [] := by
  unfold check_error_state
  rw [h]

theorem check_root_inode_shape (disk : List Nat) (sb : Superblock) (bs : Nat)
    (l : List Issue) (h : check_root_inode disk sb bs = .ok l) :
    ∀ i ∈ l, referencesExtendedErrorFields i = false := by
  unfold check_root_inode at h
  cases hc : check_inode disk sb bs 2 with
  | error e => rw [hc] at h; exact Except.noConfusion h
  | ok r =>
    rw [hc] at h
    cases r with
    | none =>
      dsimp only at h
      injection h with h
      subst h
      intro i hi
      simp only [List.mem_singleton] at hi
      subst hi; rfl
    | some ino =>
      dsimp only at h
      injection h with h
      subst h
      intro i hi
      simp only [List.mem_append] at hi
      rcases hi with (h1 | h1) | h1 <;>
        (revert h1; split <;> intro h1 <;> simp_all [referencesExtendedErrorFields])

theorem bgLoop_shape (disk : List Nat) (sb : Superblock) (bs : Nat) :
    ∀ (n start : Nat) (acc l : List Issue),
      (∀ i ∈ acc, referencesExtendedErrorFields i = false) →
      bgLoop disk sb bs start n acc = .ok l →
      ∀ i ∈ l, referencesExtendedErrorFields i = false := by
  intro n
  induction n with
  | zero =>
    intro start acc l hacc h
    injection h with h
    subst h
    exact hacc
  | succ m ih =>
    intro start acc l hacc h
    unfold bgLoop at h
    cases hbg : parse_block_group_descriptor disk sb bs start with
    | error e => rw [hbg] at h; exact Except.noConfusion h
    | ok bg =>
      rw [hbg] at h
      refine ih (start + 1) _ l ?_ h
      intro i hi
      rcases List.mem_append.mp hi with h1 | h1
      · exact hacc i h1
      · unfold bgCheckIssues at h1
        simp only [List.mem_append] at h1
        rcases h1 with ((h2 | h2) | h2) | h2 <;>
          (revert h2; split <;> intro h2 <;> simp_all [referencesExtendedErrorFields])

theorem check_block_groups_shape (disk : List Nat) (sb : Superblock) (bs : Nat)
    (l : List Issue) (h : check_block_groups disk sb bs = .ok l) :
    ∀ i ∈ l, referencesExtendedErrorFields i = false := by
  unfold check_block_groups at h
  by_cases hz : sb.s_blocks_per_group = 0
  · rw [if_pos hz] at h; exact Except.noConfusion h
  · rw [if_neg hz] at h
    exact bgLoop_shape disk sb bs _ 0 [] l (fun i hi => absurd hi (List.not_mem_nil i)) h

theorem analyze_rev0_shape (disk : List Nat) (r : AnalyzeResult)
    (ha : analyze disk = .ok r) (hrev : r.superblock.s_rev_level = 0) :
    ∀ i ∈ r.issues, referencesExtendedErrorFields i = false := by
  unfold analyze at ha
  cases hp : parse_superblock (read_at disk 1024 1024) with
  | error e => simp only [hp] at ha; exact Except.noConfusion ha
  | ok sb =>
    simp only [hp] at ha
    by_cases hm : sb.s_magic ≠ 0xEF53
    · rw [if_pos hm] at ha
      injection ha with h
      subst h
      intro i hi
      simp only [List.mem_singleton] at hi
      subst hi; rfl
    · rw [if_neg hm] at ha
      cases hroot : check_root_inode disk sb sb.block_size with
      | error e => simp only [hroot] at ha; exact Except.noConfusion ha
      | ok rootIssues =>
        simp only [hroot] at ha
        cases hbgs : check_block_groups disk sb sb.block_size with
        | error e => simp only [hbgs] at ha; exact Except.noConfusion ha
        | ok bgIssues =>
          simp only [hbgs] at ha
          injection ha with h
          subst h
          have hext : sb.ext = none := parse_rev0_ext_none _ sb hp hrev
          intro i hi
          simp only [List.mem_append] at hi
          rcases hi with ((((h1 | h1) | h1) | h1) | h1) | h1
          · revert h1; split <;> intro h1 <;> simp_all [referencesExtendedErrorFields]
          · unfold check_orphan_list at h1
            revert h1; split <;> intro h1 <;> simp_all [referencesExtendedErrorFields]
          · rw [check_error_state_of_ext_none sb hext] at h1
            exact absurd h1 (List.not_mem_nil i)
          · exact check_root_inode_shape disk sb sb.block_size rootIssues hroot i h1
          · exact check_block_groups_shape disk sb sb.block_size bgIssues hbgs i h1
          · revert h1
            split
            · split
              · intro h1; simp_all [referencesExtendedErrorFields]
              · split
                · intro h1; simp_all [referencesExtendedErrorFields]
                · intro h1; exact absurd h1 (List.not_mem_nil i)
            · intro h1; exact absurd h1 (List.not_mem_nil i)

/-- C3 (corrected): with `s_rev_level = 0` the decoded record contains no
conditionally-extended fields (`ext = none`: no error counters, no
first/last error data, no snapshot or checksum fields) and no check that
depends on them (`check_error_state`, their only consumer) raises any
Issue — in any completed analysis of a rev-0 superblock no Issue
references those fields.  However, journal fields (`s_journal_inum`,
`s_journal_dev`, `s_journal_uuid`) are decoded unconditionally, outside
the rev-level guard, and the journal check can raise Issues referencing
them even for rev 0 (see the counterexample). -/
theorem c3_rev0_extended_absent :
    (∀ (data : List Nat) (sb : Superblock), parse_superblock data = .ok sb →
        sb.s_rev_level = 0 →
        sb.ext = none ∧ check_error_state sb = []) ∧
    (∀ (disk : List Nat) (r : AnalyzeResult), analyze disk = .ok r →
        r.superblock.s_rev_level = 0 →
        ∀ i ∈ r.issues, referencesExtendedErrorFields i = false) :=
  ⟨fun data sb hp hrev =>
    ⟨parse_rev0_ext_none data sb hp hrev,
      check_error_state_of_ext_none sb (parse_rev0_ext_none data sb hp hrev)⟩,
    fun disk r ha hrev => analyze_rev0_shape disk r ha hrev⟩

/-- First 0x10C bytes of the C3 counterexample superblock:
`s_blocks_count_lo = 1` (offset 0x04), `s_blocks_per_group = 1` (0x20),
`s_inodes_per_group = 2` (0x28), magic 0xEF53 (0x38), clean state 1 (0x3A),
`s_feature_compat = 4` (HAS_JOURNAL, 0x5C); everything else zero — in
particular `s_rev_level = 0` and `s_journal_inum = 0`. -/
def c3_sb_prefix : List Nat :=
  List.replicate 4 0 ++ [1] ++ List.replicate 27 0 ++ [1] ++ List.replicate 7 0
    ++ [2] ++ List.replicate 15 0 ++ [0x53, 0xEF, 1] ++ List.replicate 33 0
    ++ [4] ++ List.replicate 175 0

/-- The 1024 superblock bytes read at offset 1024. -/
def c3_sb_data : List Nat := c3_sb_prefix ++ List.replicate 756 0

/-- The 32 zero bytes of block-group descriptor 0 (at offset 2048). -/
def c3_bgd_data : List Nat := List.replicate 32 0

/-- The C3 counterexample image: 2080 bytes. -/
def c3_disk : List Nat := List.replicate 1024 0 ++ (c3_sb_data ++ c3_bgd_data)
/-- The superblock decoded from the C3 counterexample image: rev_level 0, valid magic, clean state, journal compat bit set with journal inode 0. -/
def c3_sb : Superblock :=
  { s_inodes_count := 0
    s_blocks_count_lo := 1
    s_r_blocks_count_lo := 0
    s_free_blocks_count_lo := 0
    s_free_inodes_count := 0
    s_first_data_block := 0
    s_log_block_size := 0
    s_log_cluster_size := 0
    s_blocks_per_group := 1
    s_clusters_per_group := 0
    s_inodes_per_group := 2
    s_mtime := 0
    s_wtime := 0
    s_mnt_count := 0
    s_max_mnt_count := 0
    s_magic := 0xEF53
    s_state := 1
    s_errors := 0
    s_minor_rev_level := 0
    s_lastcheck := 0
    s_checkinterval := 0
    s_creator_os := 0
    s_rev_level := 0
    s_def_resuid := 0
    s_def_resgid := 0
    s_first_ino := 0
    s_inode_size := 0
    s_block_group_nr := 0
    s_feature_compat := 4
    s_feature_incompat := 0
    s_feature_ro_compat := 0
    s_uuid := List.replicate 16 0
    s_volume_name := []
    s_last_mounted := []
    s_algorithm_usage_bitmap := 0
    s_prealloc_blocks := 0
    s_prealloc_dir_blocks := 0
    s_reserved_gdt_blocks := 0
    s_journal_uuid := List.replicate 16 0
    s_journal_inum := 0
    s_journal_dev := 0
    s_last_orphan := 0
    s_hash_seed := [0, 0, 0, 0]
    s_def_hash_version := 0
    s_jnl_backup_type := 0
    s_desc_size := 0
    s_default_mount_opts := 0
    s_first_meta_bg := 0
    s_mkfs_time := 0
    ext := none
    block_size := 1024
    blocks_count := 1 }

/-- The all-zero block-group descriptor 0 of the C3 image. -/
def c3_bg : BgDesc :=
  { bg_block_bitmap_lo := 0, bg_inode_bitmap_lo := 0, bg_inode_table_lo := 0
    bg_free_blocks_count_lo := 0, bg_free_inodes_count_lo := 0
    bg_used_dirs_count_lo := 0, bg_flags := 0, bg_exclude_bitmap_lo := 0
    bg_block_bitmap_csum_lo := 0, bg_inode_bitmap_csum_lo := 0
    bg_itable_unused_lo := 0, bg_checksum := 0, hi := none }

theorem c3_sb_data_length : c3_sb_data.length = 1024 := by
  simp [c3_sb_data, c3_sb_prefix]

theorem c3_read_sb : read_at c3_disk 1024 1024 = c3_sb_data := by
  unfold c3_disk read_at
  rw [List.drop_left' (by simp), List.take_left' c3_sb_data_length]

theorem c3_read_bgd : read_at c3_disk 2048 32 = c3_bgd_data := by
  unfold c3_disk read_at
  rw [← List.append_assoc,
    List.drop_left' (by simp [c3_sb_data, c3_sb_prefix]),
    show c3_bgd_data.take 32 = c3_bgd_data from rfl]

theorem c3_parse : parse_superblock c3_sb_data = .ok c3_sb := rfl

theorem c3_rev0_witness : c3_sb.ext = none ∧ check_error_state c3_sb = [] :=
  c3_rev0_extended_absent.1 c3_sb_data c3_sb c3_parse rfl

theorem c3_parse_bgd : parse_block_group_descriptor c3_disk c3_sb 1024 0 = .ok c3_bg := by
  unfold parse_block_group_descriptor
  norm_num [show c3_sb.s_desc_size = 0 from rfl]
  rw [c3_read_bgd]
  rfl

theorem c3_check_inode : check_inode c3_disk c3_sb 1024 2 = .ok none := by
  unfold check_inode
  norm_num [show c3_sb.s_inodes_per_group = 2 from rfl]
  simp only [c3_parse_bgd]
  simp [read_at, c3_bg, show c3_sb.s_inode_size = 0 from rfl]

theorem c3_check_root : check_root_inode c3_disk c3_sb 1024 = .ok [Issue.cannotReadRootInode] := by
  unfold check_root_inode
  simp only [c3_check_inode]

theorem c3_check_bgs :
    check_block_groups c3_disk c3_sb 1024
      = .ok [Issue.invalidBlockBitmap 0, Issue.invalidInodeBitmap 0,
          Issue.invalidInodeTable 0] := by
  unfold check_block_groups
  norm_num [show c3_sb.s_blocks_per_group = 1 from rfl, show c3_sb.blocks_count = 1 from rfl]
  unfold bgLoop
  simp only [c3_parse_bgd]
  rfl

/-- C3 counterexample: a concrete 2080-byte rev-0 ext4 image (valid magic,
clean state, HAS_JOURNAL compat bit set, journal inode 0).  The decoded
record has `s_rev_level = 0` and no conditionally-extended fields
(`ext = none`), yet the analysis raises `journalInodeZero` — an Issue
referencing the journal fields, which the claim counts among the extended
fields absent at rev 0; journal fields are in fact decoded
unconditionally. -/
theorem c3_journal_issue_counterexample :
    analyze c3_disk
      = .ok ⟨c3_sb,
          [Issue.cannotReadRootInode, Issue.invalidBlockBitmap 0,
           Issue.invalidInodeBitmap 0, Issue.invalidInodeTable 0,
           Issue.journalInodeZero], [],
          [InfoItem.filesystemSizeBytes 1024, InfoItem.blockGroups 1]⟩ ∧
      c3_sb.s_rev_level = 0 ∧ c3_sb.ext = none ∧
      Issue.journalInodeZero
        ∈ [Issue.cannotReadRootInode, Issue.invalidBlockBitmap 0,
           Issue.invalidInodeBitmap 0, Issue.invalidInodeTable 0,
           Issue.journalInodeZero] := by
  refine ⟨?_, rfl, rfl, by simp⟩
  unfold analyze
  simp only [c3_read_sb, c3_parse]
  rw [if_neg (by decide : ¬ c3_sb.s_magic ≠ 0xEF53)]
  rw [show c3_sb.block_size = 1024 from rfl]
  simp only [c3_check_root, c3_check_bgs]
  rfl
